import Mathlib

/-!
Shallow embedding of the `ipcc-data` crate (src/ipcc-data/src/lib.rs): the
IPCC panic-data decoding pipeline.  Byte buffers are modelled as `List Nat`
(each element a byte value), fixed-width little-endian integers are composed
with `leVal`, and the fallible binrw-style cursor reads are modelled as
functions `Bytes → Except Err (α × Bytes)` returning the parsed value and
the remaining bytes.  Rust `String`s are modelled by their UTF-8 byte
sequences (`Bytes`), so `std::str::from_utf8` is modelled by the validity
check `validUtf8` (identity on the bytes when valid) and
`String::from_utf8_lossy` by `utf8Lossy`.
-/

namespace Ipcc

/-- A byte buffer: a list of byte values. -/
abbrev Bytes := List Nat

/-- Decode failures of the pipeline.  The Rust code surfaces these as
`anyhow` errors; we give each distinct failure site its own variant. -/
inductive Err where
  /-- Underflow in a binrw read (buffer too short at some parse step). -/
  | truncated
  /-- `fix_panic_data`: could not decode `ipd_cause` from the first byte. -/
  | unrecoverableCauseByte
  /-- V2 item type byte was not one of the four known tags. -/
  | invalidItemType
  /-- V1 `ipd_message` was not valid UTF-8. -/
  | invalidMessage
  /-- V2: more than one `Message` item was present. -/
  | multipleMessageItems
  /-- V2: `hrestime.tv_nsec` did not fit in 32 bits. -/
  | timestampOverflow
  /-- `from_bytes`: version number was neither 1 nor 2. -/
  | unsupportedVersion
  /-- V2 header's `br(assert(version == 2))` failed. -/
  | versionAssertFailed
  /-- Modelling artifact for `d[0]` on an empty buffer (a Rust index
  panic; unreachable from `from_bytes`, which short-circuits on the
  all-zero — in particular empty — buffer). -/
  | emptyInput
deriving DecidableEq, Repr

/-- Value of a little-endian byte sequence. -/
def leVal : Bytes → Nat
  | [] => 0
  | b :: rest => b % 256 + 256 * leVal rest

/-- Sequencing of cursor reads: propagate the error, or feed the parsed
value and the remaining bytes to the continuation. -/
def andThen (x : Except Err (α × Bytes)) (f : α → Bytes → Except Err (β × Bytes)) :
    Except Err (β × Bytes) :=
  match x with
  | .error e => .error e
  | .ok (a, rest) => f a rest

/-- Read `n` raw bytes from the front of the buffer. -/
def rdBytes (n : Nat) (d : Bytes) : Except Err (Bytes × Bytes) :=
  if n ≤ d.length then .ok (d.take n, d.drop n) else .error .truncated

/-- Read a `u8`. -/
def rdU8 (d : Bytes) : Except Err (Nat × Bytes) :=
  andThen (rdBytes 1 d) fun bs d => .ok (leVal bs, d)

/-- Read a little-endian `u16`. -/
def rdU16 (d : Bytes) : Except Err (Nat × Bytes) :=
  andThen (rdBytes 2 d) fun bs d => .ok (leVal bs, d)

/-- Read a little-endian `u32`. -/
def rdU32 (d : Bytes) : Except Err (Nat × Bytes) :=
  andThen (rdBytes 4 d) fun bs d => .ok (leVal bs, d)

/-- Read a little-endian `u64`. -/
def rdU64 (d : Bytes) : Except Err (Nat × Bytes) :=
  andThen (rdBytes 8 d) fun bs d => .ok (leVal bs, d)

/-- Read `n` consecutive records with the reader `r` (binrw array /
`count` semantics). -/
def rdCount (n : Nat) (r : Bytes → Except Err (α × Bytes)) (d : Bytes) :
    Except Err (List α × Bytes) :=
  match n with
  | 0 => .ok ([], d)
  | n + 1 =>
    andThen (r d) fun x d =>
    andThen (rdCount n r d) fun xs d =>
    .ok (x :: xs, d)

/-- Is `c` a UTF-8 continuation byte (`0x80..=0xBF`)? -/
def isCont (c : Nat) : Bool := decide (0x80 ≤ c ∧ c ≤ 0xbf)

/-- Admissible range of the first continuation byte after lead byte `b`
(the lead bytes `0xe0`, `0xed`, `0xf0` and `0xf4` restrict it). -/
def cont1ok (b c : Nat) : Bool :=
  if b = 0xe0 then decide (0xa0 ≤ c ∧ c ≤ 0xbf)
  else if b = 0xed then decide (0x80 ≤ c ∧ c ≤ 0x9f)
  else if b = 0xf0 then decide (0x90 ≤ c ∧ c ≤ 0xbf)
  else if b = 0xf4 then decide (0x80 ≤ c ∧ c ≤ 0x8f)
  else isCont c

/-- Is the byte sequence valid UTF-8?  Models `std::str::from_utf8(..).is_ok()`. -/
def validUtf8 : Bytes → Bool
  | [] => true
  | b :: rest =>
    if b ≤ 0x7f then validUtf8 rest
    else
      match rest with
      | [] => false
      | c1 :: r1 =>
        if 0xc2 ≤ b ∧ b ≤ 0xdf then isCont c1 && validUtf8 r1
        else
          match r1 with
          | [] => false
          | c2 :: r2 =>
            if 0xe0 ≤ b ∧ b ≤ 0xef then cont1ok b c1 && isCont c2 && validUtf8 r2
            else
              match r2 with
              | [] => false
              | c3 :: r3 =>
                if 0xf0 ≤ b ∧ b ≤ 0xf4 then
                  cont1ok b c1 && isCont c2 && isCont c3 && validUtf8 r3
                else false

/-- UTF-8 bytes of the replacement character U+FFFD. -/
def repl : Bytes := [0xef, 0xbf, 0xbd]

/-- One pass of lossy UTF-8 decoding (fuel-indexed; each step consumes at
least one input byte, so fuel = input length suffices).  Valid scalar
sequences are passed through unchanged; each maximal invalid subpart is
replaced by U+FFFD, following `String::from_utf8_lossy`. -/
def utf8LossyGo : Nat → Bytes → Bytes
  | 0, _ => []
  | _, [] => []
  | fuel + 1, b :: rest =>
    if b ≤ 0x7f then b :: utf8LossyGo fuel rest
    else if 0xc2 ≤ b ∧ b ≤ 0xdf then
      match rest with
      | [] => repl
      | c1 :: r1 =>
        if isCont c1 then b :: c1 :: utf8LossyGo fuel r1
        else repl ++ utf8LossyGo fuel (c1 :: r1)
    else if 0xe0 ≤ b ∧ b ≤ 0xef then
      match rest with
      | [] => repl
      | c1 :: r1 =>
        if cont1ok b c1 then
          match r1 with
          | [] => repl
          | c2 :: r2 =>
            if isCont c2 then b :: c1 :: c2 :: utf8LossyGo fuel r2
            else repl ++ utf8LossyGo fuel (c2 :: r2)
        else repl ++ utf8LossyGo fuel (c1 :: r1)
    else if 0xf0 ≤ b ∧ b ≤ 0xf4 then
      match rest with
      | [] => repl
      | c1 :: r1 =>
        if cont1ok b c1 then
          match r1 with
          | [] => repl
          | c2 :: r2 =>
            if isCont c2 then
              match r2 with
              | [] => repl
              | c3 :: r3 =>
                if isCont c3 then b :: c1 :: c2 :: c3 :: utf8LossyGo fuel r3
                else repl ++ utf8LossyGo fuel (c3 :: r3)
            else repl ++ utf8LossyGo fuel (c2 :: r2)
        else repl ++ utf8LossyGo fuel (c1 :: r1)
    else repl ++ utf8LossyGo fuel rest

/-- Lossy UTF-8 decoding, modelling `String::from_utf8_lossy` (the result
`String` represented by its UTF-8 bytes). -/
def utf8Lossy (l : Bytes) : Bytes := utf8LossyGo l.length l

/-- `str::trim_matches('\0')`: remove leading and trailing NUL bytes (a
valid UTF-8 string contains the byte 0 exactly for the char NUL). -/
def trimNuls (l : Bytes) : Bytes :=
  ((l.dropWhile (· == 0)).reverse.dropWhile (· == 0)).reverse

/-- The version of the IPCC panic data, together with whether it was read
directly from the data or had to be inferred (hubris#1554). -/
inductive PanicDataVersion where
  | Determined (v : Nat)
  | Inferred (v : Nat)
deriving DecidableEq, Repr

/-- `PanicDataVersion::number`. -/
def PanicDataVersion.number : PanicDataVersion → Nat
  | .Determined v => v
  | .Inferred v => v

/-- A host register (AMD64), as in the `Register` enum. -/
inductive Register where
  | rdi | rsi | rdx | rcx | r8 | r9 | rax | rbx | rbp | r10 | r11 | r12
  | r13 | r14 | r15 | fsbase | gsbase | ds | es | fs | gs | trapno | err
  | rip | cs | rfl | rsp | ss
deriving DecidableEq, Repr

/-- A stack frame of the decoded record.  The symbol `String` is modelled
by its UTF-8 bytes. -/
structure StackFrame where
  address : Nat
  symbol : Option Bytes
  offset : Nat
deriving DecidableEq, Repr

/-- Cause of a panic (`PanicCause`). -/
inductive PanicCause where
  | Call
  | Trap
  | UserTrap
  | EarlyBoot
  | EarlyBootPROM
  | EarlyBootTrap
  | EarlyBootUnknown
  | Unknown (c : Nat)
deriving DecidableEq, Repr

/-- `impl From<u16> for PanicCause`: the fixed cause-code lookup table. -/
def PanicCause.fromCode (cause : Nat) : PanicCause :=
  if cause = 0xca11 then .Call
  else if cause = 0xa900 then .Trap
  else if cause = 0x5e00 then .UserTrap
  else if cause = 0xeb00 then .EarlyBoot
  else if cause = 0xeb97 then .EarlyBootPROM
  else if cause = 0xeba9 then .EarlyBootTrap
  else if cause = 0xebff then .EarlyBootUnknown
  else .Unknown cause

/-- `AdjustedTime`: seconds and nanoseconds since the Epoch. -/
structure AdjustedTime where
  sec : Nat
  nsec : Nat
deriving DecidableEq, Repr

/-- The decoded host panic data (`PanicData`).  `Cpuid`, `Addr` and
`MonotonicNanoseconds` newtypes are modelled as plain `Nat`; strings by
their UTF-8 bytes; the `IndexMap<Register, u64>` by its insertion-ordered
association list. -/
structure PanicData where
  version : PanicDataVersion
  cause : PanicCause
  error_code : Nat
  cpuid : Nat
  hrtime : Option Nat
  time : Option AdjustedTime
  thread : Nat
  addr : Nat
  pc : Nat
  fp : Nat
  rp : Nat
  message : Option Bytes
  registers : Option (List (Register × Nat))
  stack : List StackFrame
deriving DecidableEq, Repr

/-- `IPCC_PANIC_VERSION_MAX`. -/
def IPCC_PANIC_VERSION_MAX : Nat := 0x3f

/-- `IPCC_PANIC_V1_STACKS`. -/
def IPCC_PANIC_V1_STACKS : Nat := 0x10

/-- `IPCC_PANIC_V1_DATALEN`. -/
def IPCC_PANIC_V1_DATALEN : Nat := 0x100

/-- `IPCC_PANIC_V1_SYMLEN`. -/
def IPCC_PANIC_V1_SYMLEN : Nat := 0x20

/-- `IPCC_PANIC_V1_MSGLEN`. -/
def IPCC_PANIC_V1_MSGLEN : Nat := 0x80

/-- One V1 stack slot (`IpccPanicStackV1`). -/
structure IpccPanicStackV1 where
  ips_symbol : Bytes
  ips_addr : Nat
  ips_offset : Nat
deriving DecidableEq, Repr

/-- The raw V1 record (`IpccPanicDataV1`). -/
structure IpccPanicDataV1 where
  ipd_version : Nat
  ipd_cause : Nat
  ipd_error : Nat
  ipd_cpuid : Nat
  ipd_thread : Nat
  ipd_addr : Nat
  ipd_pc : Nat
  ipd_fp : Nat
  ipd_rp : Nat
  ipd_message : Bytes
  ipd_stackidx : Nat
  ipd_stack : List IpccPanicStackV1
  ipd_dataidx : Nat
  ipd_data : Bytes
deriving DecidableEq, Repr

/-- binrw `read_le` for `IpccPanicStackV1`. -/
def IpccPanicStackV1.read (d : Bytes) : Except Err (IpccPanicStackV1 × Bytes) :=
  andThen (rdBytes IPCC_PANIC_V1_SYMLEN d) fun ips_symbol d =>
  andThen (rdU64 d) fun ips_addr d =>
  andThen (rdU64 d) fun ips_offset d =>
  .ok (⟨ips_symbol, ips_addr, ips_offset⟩, d)

/-- binrw `read_le` for `IpccPanicDataV1` (fields in declaration order). -/
def IpccPanicDataV1.read (d : Bytes) : Except Err (IpccPanicDataV1 × Bytes) :=
  andThen (rdU8 d) fun ipd_version d =>
  andThen (rdU16 d) fun ipd_cause d =>
  andThen (rdU32 d) fun ipd_error d =>
  andThen (rdU32 d) fun ipd_cpuid d =>
  andThen (rdU64 d) fun ipd_thread d =>
  andThen (rdU64 d) fun ipd_addr d =>
  andThen (rdU64 d) fun ipd_pc d =>
  andThen (rdU64 d) fun ipd_fp d =>
  andThen (rdU64 d) fun ipd_rp d =>
  andThen (rdBytes IPCC_PANIC_V1_MSGLEN d) fun ipd_message d =>
  andThen (rdU8 d) fun ipd_stackidx d =>
  andThen (rdCount IPCC_PANIC_V1_STACKS IpccPanicStackV1.read d) fun ipd_stack d =>
  andThen (rdU8 d) fun ipd_dataidx d =>
  andThen (rdBytes IPCC_PANIC_V1_DATALEN d) fun ipd_data d =>
  .ok (⟨ipd_version, ipd_cause, ipd_error, ipd_cpuid, ipd_thread, ipd_addr,
        ipd_pc, ipd_fp, ipd_rp, ipd_message, ipd_stackidx, ipd_stack,
        ipd_dataidx, ipd_data⟩, d)

/-- The raw V2 register block (`IpccPanicRegs`). -/
structure IpccPanicRegs where
  savfp : Nat
  savpc : Nat
  rdi : Nat
  rsi : Nat
  rdx : Nat
  rcx : Nat
  r8 : Nat
  r9 : Nat
  rax : Nat
  rbx : Nat
  rbp : Nat
  r10 : Nat
  r11 : Nat
  r12 : Nat
  r13 : Nat
  r14 : Nat
  r15 : Nat
  fsbase : Nat
  gsbase : Nat
  ds : Nat
  es : Nat
  fs : Nat
  gs : Nat
  trapno : Nat
  err : Nat
  rip : Nat
  cs : Nat
  rfl : Nat
  rsp : Nat
  ss : Nat
deriving DecidableEq, Repr

/-- binrw `read_le` for `IpccPanicRegs` (30 consecutive `u64`s). -/
def IpccPanicRegs.read (d : Bytes) : Except Err (IpccPanicRegs × Bytes) :=
  andThen (rdU64 d) fun savfp d =>
  andThen (rdU64 d) fun savpc d =>
  andThen (rdU64 d) fun rdi d =>
  andThen (rdU64 d) fun rsi d =>
  andThen (rdU64 d) fun rdx d =>
  andThen (rdU64 d) fun rcx d =>
  andThen (rdU64 d) fun r8 d =>
  andThen (rdU64 d) fun r9 d =>
  andThen (rdU64 d) fun rax d =>
  andThen (rdU64 d) fun rbx d =>
  andThen (rdU64 d) fun rbp d =>
  andThen (rdU64 d) fun r10 d =>
  andThen (rdU64 d) fun r11 d =>
  andThen (rdU64 d) fun r12 d =>
  andThen (rdU64 d) fun r13 d =>
  andThen (rdU64 d) fun r14 d =>
  andThen (rdU64 d) fun r15 d =>
  andThen (rdU64 d) fun fsbase d =>
  andThen (rdU64 d) fun gsbase d =>
  andThen (rdU64 d) fun ds d =>
  andThen (rdU64 d) fun es d =>
  andThen (rdU64 d) fun fs d =>
  andThen (rdU64 d) fun gs d =>
  andThen (rdU64 d) fun trapno d =>
  andThen (rdU64 d) fun err d =>
  andThen (rdU64 d) fun rip d =>
  andThen (rdU64 d) fun cs d =>
  andThen (rdU64 d) fun rfl d =>
  andThen (rdU64 d) fun rsp d =>
  andThen (rdU64 d) fun ss d =>
  .ok (⟨savfp, savpc, rdi, rsi, rdx, rcx, r8, r9, rax, rbx, rbp, r10, r11,
        r12, r13, r14, r15, fsbase, gsbase, ds, es, fs, gs, trapno, err,
        rip, cs, rfl, rsp, ss⟩, d)

/-- `IpccHresTime`. -/
structure IpccHresTime where
  tv_sec : Nat
  tv_nsec : Nat
deriving DecidableEq, Repr

/-- binrw `read_le` for `IpccHresTime`. -/
def IpccHresTime.read (d : Bytes) : Except Err (IpccHresTime × Bytes) :=
  andThen (rdU64 d) fun tv_sec d =>
  andThen (rdU64 d) fun tv_nsec d =>
  .ok (⟨tv_sec, tv_nsec⟩, d)

/-- V2 item tags (`IpccPanicItemType`, `br(repr = u8)`). -/
inductive IpccPanicItemType where
  | Nop
  | Message
  | StackEntry
  | Ancillary
deriving DecidableEq, Repr

/-- Read the `u8`-repr item tag; an unknown byte is a binrw error. -/
def rdItemType (d : Bytes) : Except Err (IpccPanicItemType × Bytes) :=
  andThen (rdU8 d) fun b d =>
  match b with
  | 0 => .ok (.Nop, d)
  | 1 => .ok (.Message, d)
  | 2 => .ok (.StackEntry, d)
  | 3 => .ok (.Ancillary, d)
  | _ => .error .invalidItemType

/-- A V2 tagged item (`IpccPanicItem`). -/
structure IpccPanicItem where
  ftype : IpccPanicItemType
  len : Nat
  data : Bytes
deriving DecidableEq, Repr

/-- binrw `read_le` for `IpccPanicItem`:
`data` holds `len.saturating_sub(3)` bytes. -/
def IpccPanicItem.read (d : Bytes) : Except Err (IpccPanicItem × Bytes) :=
  andThen (rdItemType d) fun ftype d =>
  andThen (rdU16 d) fun len d =>
  andThen (rdBytes (len - 3) d) fun data d =>
  .ok (⟨ftype, len, data⟩, d)

/-- A V2 stack-entry item payload (`IpccPanicStack`): the symbol runs to
the end of the item (`until_eof`). -/
structure IpccPanicStack where
  addr : Nat
  offset : Nat
  symbol : Bytes
deriving DecidableEq, Repr

/-- binrw `read_le` for `IpccPanicStack` on an item payload. -/
def IpccPanicStack.read (d : Bytes) : Except Err (IpccPanicStack × Bytes) :=
  andThen (rdU64 d) fun addr d =>
  andThen (rdU64 d) fun offset d =>
  .ok (⟨addr, offset, d⟩, [])

/-- The raw V2 record (`IpccPanicDataV2`). -/
structure IpccPanicDataV2 where
  version : Nat
  cause : Nat
  error : Nat
  hrtime : Nat
  hrestime : IpccHresTime
  cpuid : Nat
  thread : Nat
  addr : Nat
  pc : Nat
  fp : Nat
  rp : Nat
  registers : IpccPanicRegs
  nitems : Nat
  items_len : Nat
  items : List IpccPanicItem
deriving DecidableEq, Repr

/-- binrw `read_le` for `IpccPanicDataV2`, including the
`br(assert(version == 2))` check and the `count = nitems` item list. -/
def IpccPanicDataV2.read (d : Bytes) : Except Err (IpccPanicDataV2 × Bytes) :=
  andThen (rdU8 d) fun version d =>
  if version ≠ 2 then .error .versionAssertFailed else
  andThen (rdU16 d) fun cause d =>
  andThen (rdU32 d) fun error d =>
  andThen (rdU64 d) fun hrtime d =>
  andThen (IpccHresTime.read d) fun hrestime d =>
  andThen (rdU32 d) fun cpuid d =>
  andThen (rdU64 d) fun thread d =>
  andThen (rdU64 d) fun addr d =>
  andThen (rdU64 d) fun pc d =>
  andThen (rdU64 d) fun fp d =>
  andThen (rdU64 d) fun rp d =>
  andThen (IpccPanicRegs.read d) fun registers d =>
  andThen (rdU16 d) fun nitems d =>
  andThen (rdU16 d) fun items_len d =>
  andThen (rdCount nitems IpccPanicItem.read d) fun items d =>
  .ok (⟨version, cause, error, hrtime, hrestime, cpuid, thread, addr, pc,
        fp, rp, registers, nitems, items_len, items⟩, d)

/-- The fixed reconstruction table of `fix_panic_data`: high cause byte to
reconstructed low byte (`none` means the `bail!` arm). -/
def missingCauseByte (b : Nat) : Option Nat :=
  if b = 0xca then some 0x11
  else if b = 0x5e then some 0x00
  else if b = 0xa9 then some 0x00
  else if b = 0xeb then some 0xff
  else none

/-- The version inferred from the speculative V1 probe: 1 when the probed
CPU id is below 512 and no stack slot symbol fails UTF-8 decoding,
otherwise 2. -/
def inferredVersion (check : IpccPanicDataV1) : PanicDataVersion :=
  if check.ipd_cpuid < 512 &&
      !(check.ipd_stack.any fun s => !(validUtf8 s.ips_symbol)) then
    PanicDataVersion.Inferred 1
  else
    PanicDataVersion.Inferred 2

/-- `fix_panic_data`: compensate for the hubris#1554 byte-loss defect.
On an empty buffer the Rust code would panic indexing `d[0]`; that case is
modelled as `Err.emptyInput` (unreachable from `from_bytes`). -/
def fix_panic_data (d : Bytes) : Except Err (PanicDataVersion × Bytes) :=
  match d with
  | [] => .error .emptyInput
  | b :: tl =>
    if b < IPCC_PANIC_VERSION_MAX ∧ b ≠ 0 then
      .ok (.Determined b, b :: tl)
    else
      match missingCauseByte b with
      | none => .error .unrecoverableCauseByte
      | some low =>
        let fixed : Bytes := 0xff :: low :: (b :: tl)
        match IpccPanicDataV1.read fixed with
        | .error _ => .error .truncated
        | .ok (check, _) =>
          let version := inferredVersion check
          .ok (version, fixed.set 0 version.number)

/-- The V1 stack-construction loop of `from_v1`: `enumerate` over the 16
slots, `break` once the index reaches `ipd_stackidx`; an invalid-UTF-8
symbol becomes `none` rather than a failure. -/
def buildStackV1Go (stackidx : Nat) (ndx : Nat) :
    List IpccPanicStackV1 → List StackFrame
  | [] => []
  | s :: rest =>
    if stackidx ≤ ndx then []
    else
      { address := s.ips_addr
        symbol :=
          if validUtf8 s.ips_symbol then some (trimNuls s.ips_symbol) else none
        offset := s.ips_offset } :: buildStackV1Go stackidx (ndx + 1) rest

/-- The post-parse phase of `PanicData::from_v1` on the raw record. -/
def v1Build (version : PanicDataVersion) (p : IpccPanicDataV1) :
    Except Err PanicData :=
  if validUtf8 p.ipd_message then
    .ok { version
          cause := PanicCause.fromCode p.ipd_cause
          error_code := p.ipd_error
          cpuid := p.ipd_cpuid
          hrtime := none
          time := none
          thread := p.ipd_thread
          addr := p.ipd_addr
          pc := p.ipd_pc
          fp := p.ipd_fp
          rp := p.ipd_rp
          message := some (trimNuls p.ipd_message)
          registers := none
          stack := buildStackV1Go p.ipd_stackidx 0 p.ipd_stack }
  else .error .invalidMessage

/-- `PanicData::from_v1`. -/
def PanicData.from_v1 (version : PanicDataVersion) (d : Bytes) :
    Except Err PanicData :=
  match IpccPanicDataV1.read d with
  | .error e => .error e
  | .ok (p, _) => v1Build version p

/-- The `Message`-typed items of a raw V2 record. -/
def msgItems (p : IpccPanicDataV2) : List IpccPanicItem :=
  p.items.filter fun i => i.ftype == IpccPanicItemType.Message

/-- The `StackEntry`-typed items of a raw V2 record. -/
def stackItems (p : IpccPanicDataV2) : List IpccPanicItem :=
  p.items.filter fun i => i.ftype == IpccPanicItemType.StackEntry

/-- The `match messages.len()` step of `from_v2`: zero or one `Message`
item (lossily decoded), otherwise a failure. -/
def messageOf : List IpccPanicItem → Except Err (Option Bytes)
  | [] => .ok none
  | [m] => .ok (some (utf8Lossy m.data))
  | _ => .error .multipleMessageItems

/-- The stack-item loop of `from_v2`: each `StackEntry` payload is parsed
as an `IpccPanicStack`; a zero-length symbol is absent, otherwise it is
lossily decoded. -/
def v2StackFrames : List IpccPanicItem → Except Err (List StackFrame)
  | [] => .ok []
  | i :: rest =>
    match IpccPanicStack.read i.data with
    | .error e => .error e
    | .ok (ps, _) =>
      match v2StackFrames rest with
      | .error e => .error e
      | .ok frames =>
        .ok ({ address := ps.addr
               symbol :=
                 match ps.symbol.length with
                 | 0 => none
                 | _ + 1 => some (utf8Lossy ps.symbol)
               offset := ps.offset } :: frames)

/-- The register projection of `from_v2`: the fixed `register!` sequence,
in `dumpregs()` display order (omitting `savfp`, `savpc`, `r15` and `ds`). -/
def regMap (r : IpccPanicRegs) : List (Register × Nat) :=
  [(.rdi, r.rdi), (.rsi, r.rsi), (.rdx, r.rdx), (.rcx, r.rcx),
   (.r8, r.r8), (.r9, r.r9), (.rax, r.rax), (.rbx, r.rbx), (.rbp, r.rbp),
   (.r10, r.r10), (.r11, r.r11), (.r12, r.r12), (.r13, r.r13),
   (.r14, r.r14), (.fsbase, r.fsbase), (.gsbase, r.gsbase), (.es, r.es),
   (.fs, r.fs), (.gs, r.gs), (.trapno, r.trapno), (.err, r.err),
   (.rip, r.rip), (.cs, r.cs), (.rfl, r.rfl), (.rsp, r.rsp), (.ss, r.ss)]

/-- The post-parse phase of `PanicData::from_v2` on the raw record, in
source order: message multiplicity, stack items, registers, then the
`tv_nsec` narrowing to 32 bits. -/
def v2Build (version : PanicDataVersion) (p : IpccPanicDataV2) :
    Except Err PanicData :=
  match messageOf (msgItems p) with
  | .error e => .error e
  | .ok message =>
    match v2StackFrames (stackItems p) with
    | .error e => .error e
    | .ok stack =>
      let cause := PanicCause.fromCode p.cause
      let registers :=
        if cause ≠ PanicCause.Call then some (regMap p.registers) else none
      if p.hrestime.tv_nsec < 2 ^ 32 then
        .ok { version
              cause
              error_code := p.error
              cpuid := p.cpuid
              hrtime := some p.hrtime
              time := some ⟨p.hrestime.tv_sec, p.hrestime.tv_nsec⟩
              thread := p.thread
              addr := p.addr
              pc := p.pc
              fp := p.fp
              rp := p.rp
              message
              registers
              stack }
      else .error .timestampOverflow

/-- `PanicData::from_v2`. -/
def PanicData.from_v2 (version : PanicDataVersion) (d : Bytes) :
    Except Err PanicData :=
  match IpccPanicDataV2.read d with
  | .error e => .error e
  | .ok (p, _) => v2Build version p

/-- `PanicData::from_bytes`: the public decode entry point. -/
def PanicData.from_bytes (d : Bytes) : Except Err (Option PanicData) :=
  if !(d.any fun s => s != 0) then
    .ok none
  else
    match fix_panic_data d with
    | .error e => .error e
    | .ok (version, data) =>
      match version.number with
      | 1 =>
        match PanicData.from_v1 version data with
        | .error e => .error e
        | .ok p => .ok (some p)
      | 2 =>
        match PanicData.from_v2 version data with
        | .error e => .error e
        | .ok p => .ok (some p)
      | _ => .error .unsupportedVersion

/-- Is the decode result a failure? -/
def isErr (x : Except Err α) : Bool :=
  match x with
  | .error _ => true
  | .ok _ => false

/-- Trim only *trailing* NUL bytes.  This follows the specification's words
("Trim trailing NUL padding"); the source's `trim_matches('\0')` is
`trimNuls`, which trims both ends.  Kept separate so the two can be
compared. -/
def specTrimTrailingNuls (l : Bytes) : Bytes :=
  (l.reverse.dropWhile (· == 0)).reverse

deriving instance DecidableEq for Except

set_option maxRecDepth 100000

/-! ### Helper lemmas -/

theorem andThen_ok {α β : Type} {x : Except Err (α × Bytes)}
    {f : α → Bytes → Except Err (β × Bytes)} {r : β × Bytes}
    (h : andThen x f = .ok r) : ∃ a d, x = .ok (a, d) ∧ f a d = .ok r := by
  unfold andThen at h
  match x, h with
  | .ok (a, d), h => exact ⟨a, d, rfl, h⟩

theorem rdCount_length {α : Type} (n : Nat) (r : Bytes → Except Err (α × Bytes))
    (d : Bytes) (xs : List α) (rest : Bytes)
    (h : rdCount n r d = .ok (xs, rest)) : xs.length = n := by
  induction n generalizing d xs rest with
  | zero =>
    unfold rdCount at h
    cases h
    rfl
  | succ n ih =>
    unfold rdCount at h
    obtain ⟨x, d1, h1, h⟩ := andThen_ok h
    obtain ⟨xs1, d2, h2, h⟩ := andThen_ok h
    cases h
    simp [ih _ _ _ h2]

theorem v1_read_stack_length (d : Bytes) (p : IpccPanicDataV1) (rest : Bytes)
    (h : IpccPanicDataV1.read d = .ok (p, rest)) :
    p.ipd_stack.length = IPCC_PANIC_V1_STACKS := by
  unfold IpccPanicDataV1.read at h
  obtain ⟨x1, d1, h1, h⟩ := andThen_ok h
  obtain ⟨x2, d2, h2, h⟩ := andThen_ok h
  obtain ⟨x3, d3, h3, h⟩ := andThen_ok h
  obtain ⟨x4, d4, h4, h⟩ := andThen_ok h
  obtain ⟨x5, d5, h5, h⟩ := andThen_ok h
  obtain ⟨x6, d6, h6, h⟩ := andThen_ok h
  obtain ⟨x7, d7, h7, h⟩ := andThen_ok h
  obtain ⟨x8, d8, h8, h⟩ := andThen_ok h
  obtain ⟨x9, d9, h9, h⟩ := andThen_ok h
  obtain ⟨x10, d10, h10, h⟩ := andThen_ok h
  obtain ⟨x11, d11, h11, h⟩ := andThen_ok h
  obtain ⟨x12, d12, h12, h⟩ := andThen_ok h
  obtain ⟨x13, d13, h13, h⟩ := andThen_ok h
  obtain ⟨x14, d14, h14, h⟩ := andThen_ok h
  cases h
  exact rdCount_length _ _ _ _ _ h12

theorem buildStackV1Go_eq_take (k : Nat) (ndx : Nat)
    (slots : List IpccPanicStackV1) :
    buildStackV1Go k ndx slots =
      (slots.take (k - ndx)).map fun s =>
        { address := s.ips_addr
          symbol :=
            if validUtf8 s.ips_symbol then some (trimNuls s.ips_symbol) else none
          offset := s.ips_offset } := by
  induction slots generalizing ndx with
  | nil => simp [buildStackV1Go]
  | cons s rest ih =>
    unfold buildStackV1Go
    by_cases hk : k ≤ ndx
    · rw [if_pos hk]
      have : k - ndx = 0 := by omega
      simp [this]
    · rw [if_neg hk]
      have : k - ndx = (k - (ndx + 1)) + 1 := by omega
      rw [this, List.take_succ_cons, List.map_cons, ih]

theorem rdU64_ok (d : Bytes) (h : 8 ≤ d.length) :
    rdU64 d = .ok (leVal (d.take 8), d.drop 8) := by
  unfold rdU64 rdBytes
  rw [if_pos h]
  rfl

theorem v2StackFrames_ok (items : List IpccPanicItem)
    (h : ∀ i ∈ items, 16 ≤ i.data.length) :
    ∃ fs, v2StackFrames items = .ok fs := by
  induction items with
  | nil => exact ⟨[], rfl⟩
  | cons i rest ih =>
    have hi : 16 ≤ i.data.length := h i (by simp)
    have hr : IpccPanicStack.read i.data =
        .ok (⟨leVal (i.data.take 8), leVal ((i.data.drop 8).take 8),
              (i.data.drop 8).drop 8⟩, []) := by
      unfold IpccPanicStack.read
      rw [rdU64_ok _ (by omega)]
      simp only [andThen]
      rw [rdU64_ok _ (by rw [List.length_drop]; omega)]
    obtain ⟨fs, hfs⟩ := ih fun j hj => h j (by simp [hj])
    cases hv : v2StackFrames (i :: rest) with
    | ok fs2 => exact ⟨fs2, rfl⟩
    | error e =>
      unfold v2StackFrames at hv
      rw [hr, hfs] at hv
      exact Except.noConfusion hv

/-! ### C1 -/

/-- Counterexample to C1 as stated: the buffer `[0x3f]` has first byte
`0x3f`, inside the claimed range `[1, 0x3f]`, yet `fix_panic_data`
rejects it (the source guard is `b < IPCC_PANIC_VERSION_MAX`, strictly),
instead of returning `Determined(0x3f)` with the buffer unchanged. -/
theorem fix_panic_data_at_3f :
    fix_panic_data [0x3f] = .error .unrecoverableCauseByte ∧
    fix_panic_data [0x3f] ≠ .ok (.Determined 0x3f, [0x3f]) := by
  constructor
  · rfl
  · decide

/-- C1 (amended): for every input buffer whose first byte `b` satisfies
`1 ≤ b < 0x3f` (greater than 0 and strictly below the 6-bit maximum
version tag), `fix_panic_data` returns `Determined(b)` together with the
buffer completely unchanged. -/
theorem fix_panic_data_determined (b : Nat) (tl : Bytes)
    (h1 : 1 ≤ b) (h2 : b < 0x3f) :
    fix_panic_data (b :: tl) = .ok (.Determined b, b :: tl) := by
  have hcond : b < IPCC_PANIC_VERSION_MAX ∧ b ≠ 0 := by
    rw [show IPCC_PANIC_VERSION_MAX = 0x3f from rfl]
    omega
  simp only [fix_panic_data, if_pos hcond]

/-- Witness for C1's theorem at `b = 5`. -/
theorem fix_panic_data_determined_witness :
    1 ≤ 5 ∧ 5 < 0x3f ∧
      fix_panic_data [5, 7] = .ok (.Determined 5, [5, 7]) :=
  ⟨by decide, by decide, fix_panic_data_determined 5 [7] (by decide) (by decide)⟩

/-! ### C3 -/

/-- C3: when the first byte is not a plausible version tag (not in
`[1, 0x3f]`), the defect compensator reconstructs the missing low cause
byte by the fixed table `0xca→0x11`, `0x5e→0x00`, `0xa9→0x00`,
`0xeb→0xff` (on success the reconstructed byte is at index 1 of the
returned buffer), and for every first byte outside the table it returns
the unrecoverable-cause-byte decode failure rather than a record. -/
theorem fix_panic_data_cause_table (b : Nat) (tl : Bytes)
    (hb : ¬(1 ≤ b ∧ b ≤ 0x3f)) :
    (missingCauseByte 0xca = some 0x11 ∧ missingCauseByte 0x5e = some 0x00 ∧
     missingCauseByte 0xa9 = some 0x00 ∧ missingCauseByte 0xeb = some 0xff) ∧
    (missingCauseByte b = none →
      fix_panic_data (b :: tl) = .error .unrecoverableCauseByte) ∧
    (∀ low, missingCauseByte b = some low →
      fix_panic_data (b :: tl) ≠ .error .unrecoverableCauseByte ∧
      ∀ v out, fix_panic_data (b :: tl) = .ok (v, out) → out[1]? = some low) := by
  have hcond : ¬(b < IPCC_PANIC_VERSION_MAX ∧ b ≠ 0) := by
    rw [show IPCC_PANIC_VERSION_MAX = 0x3f from rfl]
    omega
  refine ⟨by decide, ?_, ?_⟩
  · intro hnone
    simp only [fix_panic_data, if_neg hcond, hnone]
  · intro low hlow
    rcases hr : IpccPanicDataV1.read (0xff :: low :: b :: tl) with e | ⟨check, rest⟩ <;>
      simp only [fix_panic_data, if_neg hcond, hlow, hr]
    · exact ⟨by simp, fun v out h => by simp at h⟩
    · refine ⟨by simp, fun v out h => ?_⟩
      simp only [Except.ok.injEq, Prod.mk.injEq] at h
      rw [← h.2]
      rfl

/-- Witness for C3's theorem at `b = 0x40` (outside both the version range
and the table). -/
theorem fix_panic_data_cause_table_witness :
    fix_panic_data [0x40] = .error .unrecoverableCauseByte ∧
    missingCauseByte 0xca = some 0x11 :=
  ⟨(fix_panic_data_cause_table 0x40 [] (by decide)).2.1 (by decide),
   (fix_panic_data_cause_table 0x40 [] (by decide)).1.1⟩

/-! ### C2 -/

/-- C2: `from_bytes` returns `Ok(None)` if and only if every byte of the
buffer is zero; in particular, for all-zero input of any size the result
is `Ok(None)` and never an error or a record. -/
theorem from_bytes_ok_none_iff (d : Bytes) :
    PanicData.from_bytes d = .ok none ↔ ∀ x ∈ d, x = 0 := by
  constructor
  · intro h
    by_contra hc
    push_neg at hc
    obtain ⟨x, hx, hxn⟩ := hc
    have hany : (d.any fun s => s != 0) = true :=
      List.any_eq_true.2 ⟨x, hx, by simpa using hxn⟩
    unfold PanicData.from_bytes at h
    rw [hany] at h
    simp only [Bool.not_true, Bool.false_eq_true, if_false] at h
    split at h
    · simp at h
    · split at h
      · split at h <;> simp at h
      · split at h <;> simp at h
      · simp at h
  · intro h
    have hany : (d.any fun s => s != 0) = false := by
      rw [List.any_eq_false]
      intro x hx
      simp [h x hx]
    unfold PanicData.from_bytes
    rw [hany]
    rfl

/-! ### C4 -/

/-- The inference condition of `inferredVersion`, as a proposition: probed
CPU id below 512 and every stack slot symbol valid UTF-8. -/
theorem inferCond_iff (check : IpccPanicDataV1) :
    ((check.ipd_cpuid < 512 &&
        !(check.ipd_stack.any fun s => !(validUtf8 s.ips_symbol))) = true) ↔
      (check.ipd_cpuid < 512 ∧
        ∀ s ∈ check.ipd_stack, validUtf8 s.ips_symbol = true) := by
  simp [List.any_eq_false]

/-- C4: on the defect-compensation path, after a successful speculative V1
probe of the reshaped buffer `0xff :: low :: d`, the inferred version is 1
exactly when the probed CPU id is below 512 and every one of the 16
fixed-size stack symbol slots (the probe always has 16) is valid UTF-8,
and 2 otherwise; the returned buffer is the reshaped buffer with its
placeholder first byte overwritten by the inferred version number. -/
theorem fix_panic_data_inferred (b : Nat) (tl : Bytes) (low : Nat)
    (check : IpccPanicDataV1) (rest : Bytes)
    (hlow : missingCauseByte b = some low)
    (hread : IpccPanicDataV1.read (0xff :: low :: b :: tl) = .ok (check, rest)) :
    ((check.ipd_cpuid < 512 ∧
        ∀ s ∈ check.ipd_stack, validUtf8 s.ips_symbol = true) →
      fix_panic_data (b :: tl) = .ok (.Inferred 1, 1 :: low :: b :: tl)) ∧
    (¬(check.ipd_cpuid < 512 ∧
        ∀ s ∈ check.ipd_stack, validUtf8 s.ips_symbol = true) →
      fix_panic_data (b :: tl) = .ok (.Inferred 2, 2 :: low :: b :: tl)) ∧
    check.ipd_stack.length = 16 := by
  have hb : ¬(b < IPCC_PANIC_VERSION_MAX ∧ b ≠ 0) := by
    unfold missingCauseByte at hlow
    split_ifs at hlow with h1 h2 h3 h4 <;>
      (rw [show IPCC_PANIC_VERSION_MAX = 0x3f from rfl]; omega)
  refine ⟨?_, ?_, v1_read_stack_length _ _ _ hread⟩
  · intro hc
    have hv : inferredVersion check = .Inferred 1 := by
      unfold inferredVersion
      rw [if_pos ((inferCond_iff check).2 hc)]
    simp only [fix_panic_data, if_neg hb, hlow, hread, hv]
    rfl
  · intro hc
    have hv : inferredVersion check = .Inferred 2 := by
      unfold inferredVersion
      rw [if_neg]
      intro hcb
      exact hc ((inferCond_iff check).1 hcb)
    simp only [fix_panic_data, if_neg hb, hlow, hread, hv]
    rfl

/-- The 1205-byte tail used to exercise the defect-compensation path:
`0xca` followed by 1202 zero bytes. -/
def c4tl : Bytes := List.replicate 1202 0

/-- The raw V1 record produced by the probe on `0xff :: 0x11 :: 0xca :: c4tl`. -/
def c4check : IpccPanicDataV1 :=
  ⟨0xff, 0xca11, 0, 0, 0, 0, 0, 0, 0, List.replicate 128 0, 0,
   List.replicate 16 ⟨List.replicate 32 0, 0, 0⟩, 0, List.replicate 256 0⟩

/-- Witness for C4's theorem: a defective buffer starting `0xca` whose
probe sees CPU id 0 and all-zero (valid UTF-8) symbols infers version 1. -/
theorem fix_panic_data_inferred_witness :
    IpccPanicDataV1.read (0xff :: 0x11 :: 0xca :: c4tl) = .ok (c4check, []) ∧
    fix_panic_data (0xca :: c4tl) = .ok (.Inferred 1, 1 :: 0x11 :: 0xca :: c4tl) := by
  have hr : IpccPanicDataV1.read (0xff :: 0x11 :: 0xca :: c4tl) =
      .ok (c4check, []) := by decide
  exact ⟨hr,
    (fix_panic_data_inferred 0xca c4tl 0x11 c4check [] (by decide) hr).1
      (by decide)⟩

/-! ### C5 -/

/-- C5: for every successfully decoded V2 record, `registers` is `None`
exactly when the cause (after table lookup of the raw 16-bit code) is
`Call`, and is `Some` of the fixed register projection of the raw block
for every other cause, regardless of the raw register block's contents. -/
theorem from_v2_registers (v : PanicDataVersion) (d : Bytes)
    (p : IpccPanicDataV2) (rest : Bytes) (pd : PanicData)
    (hread : IpccPanicDataV2.read d = .ok (p, rest))
    (hok : PanicData.from_v2 v d = .ok pd) :
    (pd.registers = none ↔ PanicCause.fromCode p.cause = .Call) ∧
    (PanicCause.fromCode p.cause ≠ .Call →
      pd.registers = some (regMap p.registers)) ∧
    pd.cause = PanicCause.fromCode p.cause := by
  simp only [PanicData.from_v2, hread] at hok
  unfold v2Build at hok
  rcases hm : messageOf (msgItems p) with e | msg
  · simp only [hm] at hok
    exact Except.noConfusion hok
  · simp only [hm] at hok
    rcases hs : v2StackFrames (stackItems p) with e | fs
    · simp only [hs] at hok
      exact Except.noConfusion hok
    · simp only [hs] at hok
      split at hok
      · cases hok
        by_cases hc : PanicCause.fromCode p.cause = PanicCause.Call
        · exact ⟨by simp [hc], fun hcc => absurd hc hcc, rfl⟩
        · exact ⟨by simp [hc], fun _ => by simp [hc], rfl⟩
      · exact Except.noConfusion hok

/-- The all-zero raw V2 register block. -/
def zeroRegs : IpccPanicRegs :=
  ⟨0, 0, 0, 0, 0, 0, 0, 0, 0, 0, 0, 0, 0, 0, 0,
   0, 0, 0, 0, 0, 0, 0, 0, 0, 0, 0, 0, 0, 0, 0⟩

/-- A 319-byte V2 buffer with cause code `0xca11` (`Call`) and no items. -/
def c5buf : Bytes := [2, 0x11, 0xca] ++ List.replicate 316 0

/-- The raw record parsed from `c5buf`. -/
def c5p : IpccPanicDataV2 :=
  ⟨2, 0xca11, 0, 0, ⟨0, 0⟩, 0, 0, 0, 0, 0, 0, zeroRegs, 0, 0, []⟩

/-- The decoded record for `c5buf`: cause `Call`, so no registers. -/
def c5pd : PanicData :=
  ⟨.Determined 2, .Call, 0, 0, some 0, some ⟨0, 0⟩, 0, 0, 0, 0, 0,
   none, none, []⟩

/-- Witness for C5's theorem on `c5buf`. -/
theorem from_v2_registers_witness :
    IpccPanicDataV2.read c5buf = .ok (c5p, []) ∧
    PanicData.from_v2 (.Determined 2) c5buf = .ok c5pd ∧
    (c5pd.registers = none ↔ PanicCause.fromCode c5p.cause = .Call) := by
  have h1 : IpccPanicDataV2.read c5buf = .ok (c5p, []) := by decide
  have h2 : PanicData.from_v2 (.Determined 2) c5buf = .ok c5pd := by decide
  exact ⟨h1, h2, (from_v2_registers _ _ _ _ _ h1 h2).1⟩

/-! ### C6 -/

/-- A V2 buffer whose `hrestime.tv_nsec` is `2^32` *and* which carries two
`Message` items. -/
def c6buf : Bytes :=
  [2] ++ List.replicate 22 0 ++ [0, 0, 0, 0, 1, 0, 0, 0] ++
    List.replicate 284 0 ++ [2, 0] ++ [6, 0] ++ [1, 3, 0] ++ [1, 3, 0]

/-- Counterexample to C6 as stated: on `c6buf` the raw nanoseconds value
is `2^32 > 2^32 - 1`, yet the decode fails with the multiple-message-items
error, not the timestamp-overflow error — the message-multiplicity check
runs before the nanoseconds narrowing. -/
theorem from_v2_nsec_counterexample :
    (IpccPanicDataV2.read c6buf).map (fun r => r.1.hrestime.tv_nsec) =
      .ok (2 ^ 32) ∧
    PanicData.from_v2 (.Determined 2) c6buf = .error .multipleMessageItems ∧
    PanicData.from_v2 (.Determined 2) c6buf ≠ .error .timestampOverflow :=
  ⟨by decide, by decide, by decide⟩

/-- C6 (amended): for a parsed V2 record, if the raw 64-bit `hrestime`
nanoseconds value exceeds `2^32 - 1` the decode always fails, and fails
with the timestamp-overflow error whenever no earlier failure (multiple
message items, or a stack-entry item whose payload is shorter than its
16-byte address/offset prefix) intervenes; when the decode succeeds, the
output wall-time nanoseconds component equals the raw value (which hence
fits in 32 bits). -/
theorem from_v2_nsec (v : PanicDataVersion) (d : Bytes) (p : IpccPanicDataV2)
    (rest : Bytes) (hread : IpccPanicDataV2.read d = .ok (p, rest)) :
    (2 ^ 32 ≤ p.hrestime.tv_nsec → isErr (PanicData.from_v2 v d) = true) ∧
    ((msgItems p).length ≤ 1 → (∀ i ∈ stackItems p, 16 ≤ i.data.length) →
      2 ^ 32 ≤ p.hrestime.tv_nsec →
      PanicData.from_v2 v d = .error .timestampOverflow) ∧
    (∀ pd, PanicData.from_v2 v d = .ok pd →
      pd.time = some ⟨p.hrestime.tv_sec, p.hrestime.tv_nsec⟩) := by
  have hfv : PanicData.from_v2 v d = v2Build v p := by
    simp only [PanicData.from_v2, hread]
  refine ⟨?_, ?_, ?_⟩
  · intro hns
    rw [hfv]
    unfold v2Build
    rcases hm : messageOf (msgItems p) with e | msg <;> simp only [hm]
    · rfl
    · rcases hs : v2StackFrames (stackItems p) with e | fs <;> simp only [hs]
      · rfl
      · rw [if_neg (by omega)]
        rfl
  · intro hlen hstack hns
    obtain ⟨msg, hm⟩ : ∃ msg, messageOf (msgItems p) = .ok msg := by
      rcases hmi : msgItems p with _ | ⟨m, _ | ⟨m2, ms⟩⟩
      · exact ⟨none, rfl⟩
      · exact ⟨some (utf8Lossy m.data), rfl⟩
      · exfalso
        rw [hmi] at hlen
        simp only [List.length_cons] at hlen
        omega
    obtain ⟨fs, hfs⟩ := v2StackFrames_ok _ hstack
    rw [hfv]
    unfold v2Build
    simp only [hm, hfs]
    rw [if_neg (by omega)]
  · intro pd hok
    rw [hfv] at hok
    unfold v2Build at hok
    rcases hm : messageOf (msgItems p) with e | msg
    · simp only [hm] at hok
      exact Except.noConfusion hok
    · simp only [hm] at hok
      rcases hs : v2StackFrames (stackItems p) with e | fs
      · simp only [hs] at hok
        exact Except.noConfusion hok
      · simp only [hs] at hok
        split at hok
        · cases hok
          rfl
        · exact Except.noConfusion hok

/-- A 319-byte V2 buffer with `hrestime.tv_nsec = 2^32` and no items. -/
def c6wbuf : Bytes :=
  [2] ++ List.replicate 22 0 ++ [0, 0, 0, 0, 1, 0, 0, 0] ++
    List.replicate 288 0

/-- The raw record parsed from `c6wbuf`. -/
def c6wp : IpccPanicDataV2 :=
  ⟨2, 0, 0, 0, ⟨0, 4294967296⟩, 0, 0, 0, 0, 0, 0, zeroRegs, 0, 0, []⟩

/-- Witness for C6's amended theorem on `c6wbuf`. -/
theorem from_v2_nsec_witness :
    IpccPanicDataV2.read c6wbuf = .ok (c6wp, []) ∧
    PanicData.from_v2 (.Determined 2) c6wbuf = .error .timestampOverflow := by
  have h1 : IpccPanicDataV2.read c6wbuf = .ok (c6wp, []) := by decide
  exact ⟨h1,
    (from_v2_nsec _ _ _ _ h1).2.1 (by decide) (by decide) (by decide)⟩

/-! ### C7 -/

/-- C7: for every structurally valid (parsed) V2 record, if zero items
have type `Message` the decoded record's message is `None`; if exactly
one, it is `Some` of that item's payload decoded as UTF-8 with lossy
replacement; if two or more, the decode fails with the
multiple-message-items error. -/
theorem from_v2_message (v : PanicDataVersion) (d : Bytes)
    (p : IpccPanicDataV2) (rest : Bytes)
    (hread : IpccPanicDataV2.read d = .ok (p, rest)) :
    ((msgItems p).length = 0 →
      ∀ pd, PanicData.from_v2 v d = .ok pd → pd.message = none) ∧
    (∀ m, msgItems p = [m] →
      ∀ pd, PanicData.from_v2 v d = .ok pd →
        pd.message = some (utf8Lossy m.data)) ∧
    (2 ≤ (msgItems p).length →
      PanicData.from_v2 v d = .error .multipleMessageItems) := by
  have hfv : PanicData.from_v2 v d = v2Build v p := by
    simp only [PanicData.from_v2, hread]
  refine ⟨?_, ?_, ?_⟩
  · intro h0 pd hok
    rw [hfv] at hok
    unfold v2Build at hok
    rw [List.length_eq_zero.1 h0] at hok
    simp only [messageOf] at hok
    rcases hs : v2StackFrames (stackItems p) with e | fs
    · simp only [hs] at hok
      exact Except.noConfusion hok
    · simp only [hs] at hok
      split at hok
      · cases hok
        rfl
      · exact Except.noConfusion hok
  · intro m hm pd hok
    rw [hfv] at hok
    unfold v2Build at hok
    rw [hm] at hok
    simp only [messageOf] at hok
    rcases hs : v2StackFrames (stackItems p) with e | fs
    · simp only [hs] at hok
      exact Except.noConfusion hok
    · simp only [hs] at hok
      split at hok
      · cases hok
        rfl
      · exact Except.noConfusion hok
  · intro h2
    rw [hfv]
    unfold v2Build
    rcases hmi : msgItems p with _ | ⟨m, _ | ⟨m2, ms⟩⟩
    · rw [hmi] at h2
      simp at h2
    · rw [hmi] at h2
      simp at h2
    · rfl

/-- A V2 buffer with exactly one `Message` item, with payload bytes
`"hi"`. -/
def c7buf : Bytes :=
  [2] ++ List.replicate 314 0 ++ [1, 0] ++ [5, 0] ++ [1, 5, 0, 104, 105]

/-- The raw record parsed from `c7buf`. -/
def c7p : IpccPanicDataV2 :=
  ⟨2, 0, 0, 0, ⟨0, 0⟩, 0, 0, 0, 0, 0, 0, zeroRegs, 1, 5,
   [⟨.Message, 5, [104, 105]⟩]⟩

/-- The decoded record for `c7buf`. -/
def c7pd : PanicData :=
  ⟨.Determined 2, .Unknown 0, 0, 0, some 0, some ⟨0, 0⟩, 0, 0, 0, 0, 0,
   some [104, 105], some (regMap zeroRegs), []⟩

/-- Witness for C7's theorem on `c7buf` (the one-message case). -/
theorem from_v2_message_witness :
    IpccPanicDataV2.read c7buf = .ok (c7p, []) ∧
    PanicData.from_v2 (.Determined 2) c7buf = .ok c7pd ∧
    c7pd.message = some (utf8Lossy [104, 105]) := by
  have h1 : IpccPanicDataV2.read c7buf = .ok (c7p, []) := by decide
  have h2 : PanicData.from_v2 (.Determined 2) c7buf = .ok c7pd := by decide
  exact ⟨h1, h2,
    (from_v2_message _ _ _ _ h1).2.1 ⟨.Message, 5, [104, 105]⟩ (by decide)
      c7pd h2⟩

/-! ### C8 -/

theorem take_of_min {α : Type} (l : List α) (n m : Nat) (hlen : l.length = m) :
    l.take n = l.take (min n m) := by
  rw [← hlen, ← List.take_take, List.take_length]

/-- C8: for every parsed V1 record whose decode succeeds (its message
field is valid UTF-8), the output stack contains exactly the first
`min(ipd_stackidx, 16)` fixed slots in slot order; slots at or beyond the
count contribute nothing regardless of content, and a slot whose 32-byte
symbol field is invalid UTF-8 yields a frame with the symbol absent
rather than a failure. -/
theorem from_v1_stack (v : PanicDataVersion) (d : Bytes)
    (p : IpccPanicDataV1) (rest : Bytes)
    (hread : IpccPanicDataV1.read d = .ok (p, rest))
    (hmsg : validUtf8 p.ipd_message = true) :
    (PanicData.from_v1 v d).map (fun r => r.stack) =
      .ok ((p.ipd_stack.take (min p.ipd_stackidx 16)).map fun s =>
        { address := s.ips_addr
          symbol :=
            if validUtf8 s.ips_symbol then some (trimNuls s.ips_symbol)
            else none
          offset := s.ips_offset }) := by
  have hlen : p.ipd_stack.length = 16 := v1_read_stack_length _ _ _ hread
  simp only [PanicData.from_v1, hread]
  unfold v1Build
  rw [if_pos hmsg]
  simp only [Except.map]
  rw [buildStackV1Go_eq_take, Nat.sub_zero, take_of_min _ _ _ hlen]

/-- The 48 wire bytes of one V1 stack slot whose symbol field starts with
byte `b` followed by NULs, with zero address and offset. -/
def c8slotBytes (b : Nat) : Bytes :=
  (b :: List.replicate 31 0) ++ List.replicate 16 0

/-- A V1 buffer with `ipd_stackidx = 2` and 16 populated slots: slot 0 has
symbol `"a"`, slot 1 an invalid-UTF-8 symbol (`0xff`), slots 2..15 symbol
`"b"`. -/
def c8buf : Bytes :=
  [1] ++ List.replicate 50 0 ++ List.replicate 128 0 ++ [2] ++
    c8slotBytes 97 ++ c8slotBytes 255 ++
    (List.replicate 14 (c8slotBytes 98)).flatten ++ [0] ++
    List.replicate 256 0

/-- The raw record parsed from `c8buf`. -/
def c8p : IpccPanicDataV1 :=
  ⟨1, 0, 0, 0, 0, 0, 0, 0, 0, List.replicate 128 0, 2,
   ⟨97 :: List.replicate 31 0, 0, 0⟩ :: ⟨255 :: List.replicate 31 0, 0, 0⟩ ::
     List.replicate 14 ⟨98 :: List.replicate 31 0, 0, 0⟩,
   0, List.replicate 256 0⟩

/-- Witness for C8's theorem on `c8buf`: only 2 of the 16 populated slots
survive, and the second's invalid symbol is absent, not fatal. -/
theorem from_v1_stack_witness :
    IpccPanicDataV1.read c8buf = .ok (c8p, []) ∧
    validUtf8 c8p.ipd_message = true ∧
    (PanicData.from_v1 (.Determined 1) c8buf).map (fun r => r.stack) =
      .ok ((c8p.ipd_stack.take (min c8p.ipd_stackidx 16)).map fun s =>
        { address := s.ips_addr
          symbol :=
            if validUtf8 s.ips_symbol then some (trimNuls s.ips_symbol)
            else none
          offset := s.ips_offset }) := by
  have h1 : IpccPanicDataV1.read c8buf = .ok (c8p, []) := by decide
  exact ⟨h1, by decide, from_v1_stack _ _ _ _ h1 (by decide)⟩

/-! ### C9 -/

/-- A V1 buffer whose 128-byte message field is `[0, 65, 0, ..., 0]`: the
letter `A` preceded by one NUL byte. -/
def c9buf : Bytes :=
  [1] ++ List.replicate 50 0 ++ (0 :: 65 :: List.replicate 126 0) ++ [0] ++
    List.replicate 768 0 ++ [0] ++ List.replicate 256 0

/-- Counterexample to C9 as stated: on `c9buf` the message field decodes
to `"\0A"` with only trailing NUL padding removed, but the code's
`trim_matches('\0')` also strips the *leading* NUL, producing `"A"`. -/
theorem from_v1_message_counterexample :
    (IpccPanicDataV1.read c9buf).map (fun r => r.1.ipd_message) =
      .ok (0 :: 65 :: List.replicate 126 0) ∧
    specTrimTrailingNuls (0 :: 65 :: List.replicate 126 0) = [0, 65] ∧
    (PanicData.from_v1 (.Determined 1) c9buf).map (fun r => r.message) =
      .ok (some [65]) ∧
    some ([65] : Bytes) ≠ some [0, 65] :=
  ⟨by decide, by decide, by decide, by decide⟩

/-- C9 (amended): for every parsed V1 record, if the 128-byte message
field is not valid UTF-8 the whole decode fails; if it is valid UTF-8,
the output message is the decoded text with both leading and trailing
NUL padding trimmed. -/
theorem from_v1_message_trim (v : PanicDataVersion) (d : Bytes)
    (p : IpccPanicDataV1) (rest : Bytes)
    (hread : IpccPanicDataV1.read d = .ok (p, rest)) :
    (validUtf8 p.ipd_message = true →
      (PanicData.from_v1 v d).map (fun r => r.message) =
        .ok (some (trimNuls p.ipd_message))) ∧
    (validUtf8 p.ipd_message = false →
      PanicData.from_v1 v d = .error .invalidMessage) := by
  constructor
  · intro hv
    simp only [PanicData.from_v1, hread]
    unfold v1Build
    rw [if_pos hv]
    rfl
  · intro hv
    simp only [PanicData.from_v1, hread]
    unfold v1Build
    rw [if_neg (by simp [hv])]

/-- The raw record parsed from `c9buf`. -/
def c9p : IpccPanicDataV1 :=
  ⟨1, 0, 0, 0, 0, 0, 0, 0, 0, 0 :: 65 :: List.replicate 126 0, 0,
   List.replicate 16 ⟨List.replicate 32 0, 0, 0⟩, 0, List.replicate 256 0⟩

/-- Witness for C9's amended theorem on `c9buf`. -/
theorem from_v1_message_trim_witness :
    IpccPanicDataV1.read c9buf = .ok (c9p, []) ∧
    (PanicData.from_v1 (.Determined 1) c9buf).map (fun r => r.message) =
      .ok (some (trimNuls c9p.ipd_message)) := by
  have h1 : IpccPanicDataV1.read c9buf = .ok (c9p, []) := by decide
  exact ⟨h1, (from_v1_message_trim _ _ _ _ h1).1 (by decide)⟩

/-! ### C10 -/

/-- C10: every successful V1 decode produces `message = Some(..)`, never
`None`; together with `trimNuls` on the all-NUL 128-byte field producing
the empty string, an all-NUL message field yields `Some("")`. -/
theorem from_v1_message_some (v : PanicDataVersion) (d : Bytes)
    (pd : PanicData) (hok : PanicData.from_v1 v d = .ok pd) :
    pd.message.isSome = true ∧
    trimNuls (List.replicate IPCC_PANIC_V1_MSGLEN 0) = [] := by
  refine ⟨?_, by decide⟩
  unfold PanicData.from_v1 at hok
  rcases hr : IpccPanicDataV1.read d with e | ⟨p, rest⟩ <;> simp only [hr] at hok
  · exact Except.noConfusion hok
  · unfold v1Build at hok
    split at hok
    · cases hok
      rfl
    · exact Except.noConfusion hok

/-- A V1 buffer that is all zero except for its version byte. -/
def c10buf : Bytes := 1 :: List.replicate 1204 0

/-- The decoded record for `c10buf`: note `message = some ""`. -/
def c10pd : PanicData :=
  ⟨.Determined 1, .Unknown 0, 0, 0, none, none, 0, 0, 0, 0, 0, some [],
   none, []⟩

/-- Witness for C10's theorem on `c10buf` (an all-NUL message field). -/
theorem from_v1_message_some_witness :
    PanicData.from_v1 (.Determined 1) c10buf = .ok c10pd ∧
    c10pd.message.isSome = true := by
  have h1 : PanicData.from_v1 (.Determined 1) c10buf = .ok c10pd := by decide
  exact ⟨h1, (from_v1_message_some _ _ _ h1).1⟩

end Ipcc
